import Mathlib

/-
Shallow embedding of the ADB Transfer Tool (src/app.py) in Lean 4.

Python floats are modelled as exact rationals (ℚ), byte counts as ℕ and
process exit codes as ℤ.  Stateful code (the GTK application object) is
modelled by an explicit state record and by explicit traces of the side
effects it performs.  All definitions are translated from src/app.py;
line numbers in the doc comments refer to that file.
-/

namespace ADB

/-- Constant `DEVICE_DIR` (app.py line 32): push destination on the device. -/
def DEVICE_DIR : String := "/sdcard/Transfer"

/-- Constant `REMOTE_BASE_DIR` (app.py line 33). -/
def REMOTE_BASE_DIR : String := "/sdcard"

/-- Constant `REMOTE_TARGET_DIR_NAME` (app.py line 34): the folder archived on Pull. -/
def REMOTE_TARGET_DIR_NAME : String := "Transfer"

/-- Round a rational to the nearest integer, ties to even — the rounding used
by Python `format(x, '.0f')` / `'.1f'` on exactly representable values. -/
def roundHalfEven (q : ℚ) : ℤ :=
  if q - (⌊q⌋ : ℚ) < 1/2 then ⌊q⌋
  else if (1:ℚ)/2 < q - (⌊q⌋ : ℚ) then ⌊q⌋ + 1
  else if ⌊q⌋ % 2 = 0 then ⌊q⌋ else ⌊q⌋ + 1

/-- Embedding of the Python f-string conversion with zero decimal places. -/
def fmtFixed0 (q : ℚ) : String := toString (roundHalfEven q)

/-- Embedding of the Python f-string conversion with one decimal place. -/
def fmtFixed1 (q : ℚ) : String :=
  (if roundHalfEven (q * 10) < 0 then "-" else "")
    ++ toString ((roundHalfEven (q * 10)).natAbs / 10)
    ++ "." ++ toString ((roundHalfEven (q * 10)).natAbs % 10)

/-- `format_speed` (app.py lines 38-45): converts bytes/sec to a human readable
string; zero decimals below 1024 (B/s), one decimal below 1024^2 (KB/s),
one decimal otherwise (MB/s). -/
def format_speed (bytes_per_sec : ℚ) : String :=
  if bytes_per_sec < 1024 then fmtFixed0 bytes_per_sec ++ " B/s"
  else if bytes_per_sec < 1024 ^ 2 then fmtFixed1 (bytes_per_sec / 1024) ++ " KB/s"
  else fmtFixed1 (bytes_per_sec / 1024 ^ 2) ++ " MB/s"

/-- Python `int()` truncation toward zero, applied to a rational. -/
def pyInt (q : ℚ) : ℤ := if 0 ≤ q then ⌊q⌋ else - ⌊-q⌋

/-- The progress bar text set at app.py line 267: `f-string int(fraction*100) percent`. -/
def percentText (fraction : ℚ) : String := toString (pyInt (fraction * 100)) ++ "%"

/-- The mutable state of `ADBTransferApp` touched by `update_ui_progress`:
the estimator baseline (`total_bytes`, `last_fraction`, `last_time` — app.py
lines 148-150) plus the text of the speed label and the fraction and text of
the progress bar. -/
structure AppState where
  total_bytes : ℕ
  last_fraction : ℚ
  last_time : ℚ
  speedText : String
  barFraction : ℚ
  barText : String
deriving DecidableEq

/-- `ADBTransferApp.update_ui_progress` (app.py lines 250-267), with the wall
clock `time.time()` passed explicitly as `current_time`.  The four branches
correspond to: estimator inactive (`total_bytes == 0` or no baseline
timestamp), sample inside the 0.5 s damping interval, regression sample
(baseline still rewritten, speed label untouched), and the monotonic case
(speed computed and formatted, baseline rewritten).  The progress bar is
updated unconditionally at the end. -/
def update_ui_progress (s : AppState) (fraction current_time : ℚ) : AppState :=
  if 0 < s.total_bytes ∧ 0 < s.last_time then
    if 1/2 < current_time - s.last_time then
      if 0 ≤ fraction - s.last_fraction then
        ⟨s.total_bytes, fraction, current_time,
          format_speed ((fraction - s.last_fraction) * (s.total_bytes : ℚ)
            / (current_time - s.last_time)),
          fraction, percentText fraction⟩
      else
        ⟨s.total_bytes, fraction, current_time, s.speedText, fraction, percentText fraction⟩
    else
      ⟨s.total_bytes, s.last_fraction, s.last_time, s.speedText, fraction, percentText fraction⟩
  else
    ⟨s.total_bytes, s.last_fraction, s.last_time, s.speedText, fraction, percentText fraction⟩

theorem roundHalfEven_intCast (n : ℤ) : roundHalfEven (n : ℚ) = n := by
  rw [roundHalfEven]
  norm_num

theorem format_speed_b_sample : format_speed 512 = "512 B/s" := by
  have h1 : (512:ℚ) < 1024 := by norm_num
  have h2 : roundHalfEven (512:ℚ) = 512 := by
    have h := roundHalfEven_intCast 512
    norm_num at h
    exact h
  rw [format_speed, if_pos h1, fmtFixed0, h2]
  decide

theorem format_speed_kb_sample : format_speed 2048 = "2.0 KB/s" := by
  have h1 : ¬ ((2048:ℚ) < 1024) := by norm_num
  have h2 : (2048:ℚ) < 1024 ^ 2 := by norm_num
  have h3 : (2048:ℚ) / 1024 * 10 = 20 := by norm_num
  have h4 : roundHalfEven ((2048:ℚ) / 1024 * 10) = 20 := by
    rw [h3]
    have h := roundHalfEven_intCast 20
    norm_num at h
    exact h
  rw [format_speed, if_neg h1, if_pos h2, fmtFixed1, h4]
  decide

/-- Whitespace stripped by Python `str.strip()` (ASCII whitespace; the rare
Unicode space characters are not modelled). -/
def isPySpace (c : Char) : Bool :=
  c = ' ' ∨ c = '\t' ∨ c = '\n' ∨ c = '\r' ∨ c = '\x0b' ∨ c = '\x0c'

/-- Python `str.strip()` on the character list of a string. -/
def stripChars (cs : List Char) : List Char :=
  ((cs.dropWhile isPySpace).reverse.dropWhile isPySpace).reverse

/-- Python `line.strip()` (app.py line 117). -/
def pyStrip (s : String) : String := String.mk (stripChars s.data)

/-- Numeric value of an ASCII digit character. -/
def digitVal (c : Char) : ℕ := c.toNat - 48

/-- Longest digit run at the head of the character list, and the rest. -/
def takeDigits : List Char → List Char × List Char
  | [] => ([], [])
  | c :: cs =>
    if c.isDigit then
      ((takeDigits cs).1.cons c, (takeDigits cs).2)
    else ([], c :: cs)

/-- Value of a digit run, most significant digit first. -/
def digitsToNat (ds : List Char) : ℕ := ds.foldl (fun a c => 10 * a + digitVal c) 0

/-- Exponent digits of a float literal: the whole remaining input must be a
non-empty digit run. -/
def expDigits (neg : Bool) (cs : List Char) : Option (Bool × ℕ) :=
  if (takeDigits cs).1 = [] then none
  else if (takeDigits cs).2 = [] then some (neg, digitsToNat (takeDigits cs).1)
  else none

/-- Optional exponent suffix of a Python float literal (must consume the whole
remaining input).  Returns the exponent sign and magnitude. -/
def parseExpTail : List Char → Option (Bool × ℕ)
  | [] => some (false, 0)
  | c :: cs =>
    if c = 'e' ∨ c = 'E' then
      match cs with
      | '+' :: cs1 => expDigits false cs1
      | '-' :: cs1 => expDigits true cs1
      | cs1 => expDigits false cs1
    else none

/-- Optional sign at the head of a float literal. -/
def parseMantissaSign : List Char → Bool × List Char
  | '-' :: cs => (true, cs)
  | '+' :: cs => (false, cs)
  | cs => (false, cs)

/-- Scale a mantissa by the parsed exponent. -/
def applyExp (m : ℚ) (e : Bool × ℕ) : ℚ :=
  if e.1 then m / 10 ^ e.2 else m * 10 ^ e.2

/-- Apply the parsed mantissa sign. -/
def applySign (neg : Bool) (m : ℚ) : ℚ := if neg then -m else m

/-- Python `float(line_str)` (app.py line 120) restricted to finite decimal
literals: optional sign, digits with an optional decimal point, optional
exponent.  `float` also accepts `inf`, `nan` and digit-group underscores;
those spellings never occur on the `pv -n` stream and are not modelled
(they map to `none`, i.e. to the diagnostic branch). -/
def parsePyFloat (s : String) : Option ℚ :=
  match takeDigits (parseMantissaSign s.data).2, (parseMantissaSign s.data).1 with
  | (ip, '.' :: cs2), neg =>
    if ip = [] ∧ (takeDigits cs2).1 = [] then none
    else
      match parseExpTail (takeDigits cs2).2 with
      | some e =>
        some (applySign neg (applyExp
          ((digitsToNat ip : ℚ)
            + (digitsToNat (takeDigits cs2).1 : ℚ) / (10:ℚ) ^ (takeDigits cs2).1.length) e))
      | none => none
  | (ip, rest), neg =>
    if ip = [] then none
    else
      match parseExpTail rest with
      | some e => some (applySign neg (applyExp (digitsToNat ip : ℚ) e))
      | none => none

/-- Classification of one raw stderr line by the body of the read loop
(app.py lines 116-126): strip, try to parse as a float (a `pv -n` progress
percentage, forwarded as `percent / 100.0`), otherwise keep non-empty text
as diagnostic output, and drop lines that strip to nothing. -/
inductive LineClass where
  | progress (sample : ℚ)
  | diagnostic (text : String)
  | dropped
deriving DecidableEq

/-- One iteration of `read_stderr` (app.py lines 116-126) on a line that was
actually read. -/
def classify_line (line : String) : LineClass :=
  match parsePyFloat (pyStrip line) with
  | some v => LineClass.progress (v / 100)
  | none =>
    if pyStrip line = "" then LineClass.dropped
    else LineClass.diagnostic (pyStrip line)

/-- The whole `read_stderr` loop (app.py lines 111-126) over the finite list
of lines the pipeline writes to stderr before exiting: first component the
fractions passed to `update_callback` in order, second component the
`captured_errors` list in order. -/
def read_stderr_events : List String → List ℚ × List String
  | [] => ([], [])
  | line :: rest =>
    match classify_line line with
    | LineClass.progress q => (q :: (read_stderr_events rest).1, (read_stderr_events rest).2)
    | LineClass.diagnostic s => ((read_stderr_events rest).1, s :: (read_stderr_events rest).2)
    | LineClass.dropped => read_stderr_events rest

/-- `TransferOutcome`: the `(success, error_msg)` pair passed to
`finished_callback` (app.py lines 128-136). -/
structure TransferOutcome where
  success : Bool
  diagnosticText : String
deriving DecidableEq

/-- `run_adb_command_with_progress` (app.py lines 95-139) for a pipeline whose
stderr consists of `stderrLines` and which then exits with `exitCode`:
the ordered progress deliveries and the list of `finished_callback`
deliveries (a singleton by construction — the callback is invoked exactly
once, after the read loop breaks). -/
def run_adb_command_with_progress (stderrLines : List String) (exitCode : ℤ) :
    List ℚ × List TransferOutcome :=
  ((read_stderr_events stderrLines).1,
   [⟨decide (exitCode = 0),
     if exitCode = 0 then "" else String.intercalate "\n" (read_stderr_events stderrLines).2⟩])

/-- The pipeline command string built in `ADBTransferApp._prepare_and_run`
(app.py lines 336-340 for Pull, lines 351-355 for Push), an f-string over
the direction, the local path and the computed size.  `os.path.join` of the
two absolute-path constants is the slash join. -/
def build_cmd (is_pull : Bool) (local_path : String) (size_bytes : ℕ) : String :=
  if is_pull then
    "adb exec-out \"cd " ++ REMOTE_BASE_DIR ++ " && tar -c -f - " ++ REMOTE_TARGET_DIR_NAME
      ++ "\" | pv -n -s " ++ toString size_bytes ++ " | tar -xf - -C \"" ++ local_path ++ "\""
  else
    "tar -cf - -C \"" ++ local_path ++ "\" . | pv -n -s " ++ toString size_bytes
      ++ " | adb shell \"tar -xf - -C " ++ DEVICE_DIR ++ "\""

/-- Everything of the pipeline command that precedes the metering stage's
size hint. -/
def cmdBeforeSize (is_pull : Bool) (local_path : String) : String :=
  if is_pull then
    "adb exec-out \"cd " ++ REMOTE_BASE_DIR ++ " && tar -c -f - " ++ REMOTE_TARGET_DIR_NAME
      ++ "\" | pv -n -s "
  else
    "tar -cf - -C \"" ++ local_path ++ "\" . | pv -n -s "

/-- Everything of the pipeline command that follows the metering stage's
size hint. -/
def cmdAfterSize (is_pull : Bool) (local_path : String) : String :=
  if is_pull then " | tar -xf - -C \"" ++ local_path ++ "\""
  else " | adb shell \"tar -xf - -C " ++ DEVICE_DIR ++ "\""

/-- Oracle for the environment consulted by one start request: the result of
`check_adb_device`, of `os.path.exists(local_path)`, of `get_remote_size`
and of `get_local_size`. -/
structure Env where
  devicePresent : Bool
  localPathExists : Bool
  remoteSize : ℕ
  localSize : ℕ
deriving DecidableEq

/-- Observable side effects of `on_start` / `_prepare_and_run` (app.py lines
291-365), in program order.  `checkDevice`, `remoteSizeQuery`, `remoteMkdir`
and `launchPipeline` each launch an external process; those four plus
`makedirsLocal` and `localSizeWalk` are collaborator invocations. -/
inductive Step where
  | toast (msg : String)
  | setStartSensitive (enabled : Bool)
  | setStatus (msg : String)
  | setProgressOpacity (v : ℚ)
  | setSpeedOpacity (v : ℚ)
  | setSpeedText (msg : String)
  | resetBaseline
  | checkDevice
  | remoteSizeQuery (path : String)
  | makedirsLocal (path : String)
  | remoteMkdir (path : String)
  | localSizeWalk (path : String)
  | setTotalBytes (n : ℕ)
  | launchPipeline (cmd : String)
  | finish (success : Bool) (msg : String)
deriving DecidableEq

/-- Does the step launch an external process? -/
def Step.launchesProcess : Step → Bool
  | Step.checkDevice => true
  | Step.remoteSizeQuery _ => true
  | Step.remoteMkdir _ => true
  | Step.launchPipeline _ => true
  | _ => false

/-- Is the step an invocation of one of the external collaborators (bridge
tool, filesystem walk, directory creation, pipeline launch)? -/
def Step.isCollaborator : Step → Bool
  | Step.checkDevice => true
  | Step.remoteSizeQuery _ => true
  | Step.makedirsLocal _ => true
  | Step.remoteMkdir _ => true
  | Step.localSizeWalk _ => true
  | Step.launchPipeline _ => true
  | _ => false

/-- `ADBTransferApp._prepare_and_run` (app.py lines 317-365), run on the
background thread, as the ordered list of its side effects.  Logging is not
modelled. -/
def prepare_and_run (env : Env) (is_pull : Bool) (local_path : String) : List Step :=
  if ¬ env.devicePresent then
    [Step.checkDevice, Step.setStatus "Device Error",
     Step.finish false "ADB Device not connected or unauthorized"]
  else if is_pull then
    [Step.checkDevice,
     Step.remoteSizeQuery (REMOTE_BASE_DIR ++ "/" ++ REMOTE_TARGET_DIR_NAME),
     Step.makedirsLocal local_path,
     Step.setTotalBytes env.remoteSize,
     Step.setStatus "Transferring...",
     Step.launchPipeline (build_cmd true local_path env.remoteSize)]
  else if ¬ env.localPathExists then
    [Step.checkDevice, Step.finish false "Local path does not exist"]
  else
    [Step.checkDevice,
     Step.remoteMkdir DEVICE_DIR,
     Step.localSizeWalk local_path,
     Step.setTotalBytes env.localSize,
     Step.setStatus "Transferring...",
     Step.launchPipeline (build_cmd false local_path env.localSize)]

/-- `ADBTransferApp.on_start` (app.py lines 291-315): the synchronous side
effects on the UI thread, and the effects of the background thread it
spawns (empty when no thread is spawned).  `is_pull` is the state of the
mode toggle and `entryText` the raw text of the path entry. -/
def on_start (env : Env) (is_pull : Bool) (entryText : String) : List Step × List Step :=
  if pyStrip entryText = "" then
    ([Step.toast "Please select a local path."], [])
  else
    ([Step.setStartSensitive false,
      Step.setStatus "Initializing...",
      Step.setProgressOpacity 1,
      Step.setSpeedOpacity 1,
      Step.setSpeedText "Calculating...",
      Step.resetBaseline],
     prepare_and_run env is_pull (pyStrip entryText))

/-- One regular file yielded to `get_local_size` by `os.walk` (app.py lines
85-89): whether `os.path.islink` holds, and the `os.path.getsize` result
(`none` models `getsize` raising `OSError`). -/
structure WalkFile where
  isLink : Bool
  size : Option ℕ
deriving DecidableEq

/-- The accumulation loop of `get_local_size` (app.py lines 83-89): links are
skipped before `getsize` is consulted; the first raised `getsize` aborts
the walk and the `except` clause returns the total accumulated so far. -/
def get_local_size_loop : ℕ → List WalkFile → ℕ
  | acc, [] => acc
  | acc, f :: rest =>
    if f.isLink then get_local_size_loop acc rest
    else
      match f.size with
      | some sz => get_local_size_loop (acc + sz) rest
      | none => acc

/-- `get_local_size` (app.py lines 80-93) over the files `os.walk` yields for
the queried path (an empty or inaccessible path yields no files). -/
def get_local_size (files : List WalkFile) : ℕ := get_local_size_loop 0 files

theorem update_inactive (s : AppState) (f t : ℚ)
    (h : ¬ (0 < s.total_bytes ∧ 0 < s.last_time)) :
    update_ui_progress s f t
      = ⟨s.total_bytes, s.last_fraction, s.last_time, s.speedText, f, percentText f⟩ := by
  rw [update_ui_progress, if_neg h]

theorem update_speedText_cases (s : AppState) (f t : ℚ) :
    (update_ui_progress s f t).speedText = s.speedText ∨
    ∃ q : ℚ, 0 ≤ q ∧ (update_ui_progress s f t).speedText = format_speed q := by
  rw [update_ui_progress]
  split_ifs with h1 h2 h3
  · right
    refine ⟨(f - s.last_fraction) * (s.total_bytes : ℚ) / (t - s.last_time), ?_, rfl⟩
    apply div_nonneg
    · exact mul_nonneg h3 (Nat.cast_nonneg s.total_bytes)
    · linarith
  · left; rfl
  · left; rfl
  · left; rfl

theorem fold_update_zero_total (samples : List (ℚ × ℚ)) (s : AppState)
    (h : s.total_bytes = 0) :
    (samples.foldl (fun st p => update_ui_progress st p.1 p.2) s).speedText = s.speedText ∧
    (samples.foldl (fun st p => update_ui_progress st p.1 p.2) s).last_fraction
      = s.last_fraction ∧
    (samples.foldl (fun st p => update_ui_progress st p.1 p.2) s).last_time = s.last_time := by
  induction samples generalizing s with
  | nil => exact ⟨rfl, rfl, rfl⟩
  | cons p rest ih =>
    have hstep : update_ui_progress s p.1 p.2
        = ⟨s.total_bytes, s.last_fraction, s.last_time, s.speedText, p.1, percentText p.1⟩ :=
      update_inactive s p.1 p.2 (fun hc => by rw [h] at hc; exact absurd hc.1 (lt_irrefl 0))
    rw [List.foldl_cons, hstep]
    exact ih _ h

/-- C1 counterexample: at baseline `(lastFraction, lastTimestamp) = (1/2, 1)`
with `totalBytes = 100`, the regression sample `fraction = 1/4` at time `2`
rewrites the stored baseline fraction (to `1/4`), because the code's
`last_time`/`last_fraction` assignments sit outside the
`fraction_delta >= 0` guard.  This refutes "the estimator's stored baseline
is left unchanged". -/
theorem C1_counterexample :
    (1:ℚ)/4 < (AppState.mk 100 (1/2) 1 "Calculating..." 0 "0%").last_fraction ∧
    (update_ui_progress (AppState.mk 100 (1/2) 1 "Calculating..." 0 "0%") (1/4) 2).last_fraction
      ≠ (AppState.mk 100 (1/2) 1 "Calculating..." 0 "0%").last_fraction := by
  constructor
  · norm_num
  · rw [update_ui_progress]
    norm_num

/-- C1 (amended): a regression call (`fraction < lastFraction`) never produces
a speed value (the speed label text is unchanged) and never raises (the
embedding is a total function); but the stored baseline is rewritten to
`(fraction, now)` whenever `totalBytes > 0`, a baseline timestamp is set and
the elapsed time exceeds the 0.5 s sampling interval — it is unchanged only
outside that case. -/
theorem C1_regression_no_speed (s : AppState) (f t : ℚ) (hreg : f < s.last_fraction) :
    (update_ui_progress s f t).speedText = s.speedText ∧
    (if 0 < s.total_bytes ∧ 0 < s.last_time ∧ 1/2 < t - s.last_time
     then (update_ui_progress s f t).last_fraction = f ∧
          (update_ui_progress s f t).last_time = t
     else (update_ui_progress s f t).last_fraction = s.last_fraction ∧
          (update_ui_progress s f t).last_time = s.last_time) := by
  have hneg : ¬ ((0:ℚ) ≤ f - s.last_fraction) := by linarith
  by_cases h1 : 0 < s.total_bytes ∧ 0 < s.last_time
  · by_cases h2 : (1:ℚ)/2 < t - s.last_time
    · rw [update_ui_progress, if_pos h1, if_pos h2, if_neg hneg,
        if_pos (⟨h1.1, h1.2, h2⟩ : 0 < s.total_bytes ∧ 0 < s.last_time ∧ 1/2 < t - s.last_time)]
      exact ⟨rfl, rfl, rfl⟩
    · rw [update_ui_progress, if_pos h1, if_neg h2, if_neg (fun hc => h2 hc.2.2)]
      exact ⟨rfl, rfl, rfl⟩
  · rw [update_ui_progress, if_neg h1, if_neg (fun hc => h1 ⟨hc.1, hc.2.1⟩)]
    exact ⟨rfl, rfl, rfl⟩

theorem C1_regression_no_speed_witness :
    ((1:ℚ)/4 < (1:ℚ)/2) ∧
    (update_ui_progress (AppState.mk 100 (1/2) 1 "Calculating..." 0 "0%") (1/4) 2).speedText
      = "Calculating..." := by
  constructor
  · norm_num
  · exact (C1_regression_no_speed (AppState.mk 100 (1/2) 1 "Calculating..." 0 "0%") (1/4) 2
      (by norm_num)).1

/-- C4: while `totalBytes = 0` the estimator branch is skipped entirely for
every sample of every input sequence: no division happens, no speed value is
produced (the speed label keeps its prior indeterminate text) and the
baseline is untouched; and in general any speed text the update ever
produces is `format_speed` of a non-negative rate — never a negative
speed. -/
theorem C4_zero_total_no_speed (s : AppState) (samples : List (ℚ × ℚ))
    (h : s.total_bytes = 0) :
    ((samples.foldl (fun st p => update_ui_progress st p.1 p.2) s).speedText = s.speedText ∧
     (samples.foldl (fun st p => update_ui_progress st p.1 p.2) s).last_fraction
       = s.last_fraction ∧
     (samples.foldl (fun st p => update_ui_progress st p.1 p.2) s).last_time = s.last_time) ∧
    ∀ (st : AppState) (f t : ℚ),
      (update_ui_progress st f t).speedText = st.speedText ∨
      ∃ q : ℚ, 0 ≤ q ∧ (update_ui_progress st f t).speedText = format_speed q :=
  ⟨fold_update_zero_total samples s h, update_speedText_cases⟩

theorem C4_zero_total_no_speed_witness :
    (AppState.mk 0 0 0 "Calculating..." 0 "0%").total_bytes = 0 ∧
    ([((1:ℚ)/2, (1:ℚ)), ((1:ℚ)/4, (2:ℚ))].foldl
        (fun st p => update_ui_progress st p.1 p.2)
        (AppState.mk 0 0 0 "Calculating..." 0 "0%")).speedText = "Calculating..." :=
  ⟨rfl, (C4_zero_total_no_speed (AppState.mk 0 0 0 "Calculating..." 0 "0%")
      [((1:ℚ)/2, (1:ℚ)), ((1:ℚ)/4, (2:ℚ))] rfl).1.1⟩

/-- C7: for a monotonic, time-spaced sample with an established baseline the
update stores `format_speed ((fraction - lastFraction) * totalBytes /
elapsed)` in the speed label and rewrites the baseline to `(fraction, now)`;
and `format_speed` renders with zero decimal places below 1024 (B/s), one
decimal place from 1024 up to 1024^2 (KB/s) and one decimal place at or
above 1024^2 (MB/s) — `fmtFixed0` and `fmtFixed1` embed the Python
fixed-point conversions with zero and one decimal place. -/
theorem C7_monotonic_speed (s : AppState) (f t : ℚ)
    (htot : 0 < s.total_bytes) (hbase : 0 < s.last_time)
    (helapsed : 1/2 < t - s.last_time) (hmono : s.last_fraction ≤ f) :
    (update_ui_progress s f t).speedText
      = format_speed ((f - s.last_fraction) * (s.total_bytes : ℚ) / (t - s.last_time)) ∧
    (update_ui_progress s f t).last_fraction = f ∧
    (update_ui_progress s f t).last_time = t ∧
    (∀ q : ℚ, q < 1024 → format_speed q = fmtFixed0 q ++ " B/s") ∧
    (∀ q : ℚ, 1024 ≤ q → q < 1024 ^ 2 → format_speed q = fmtFixed1 (q / 1024) ++ " KB/s") ∧
    (∀ q : ℚ, 1024 ^ 2 ≤ q → format_speed q = fmtFixed1 (q / 1024 ^ 2) ++ " MB/s") := by
  have hupd : update_ui_progress s f t
      = ⟨s.total_bytes, f, t,
          format_speed ((f - s.last_fraction) * (s.total_bytes : ℚ) / (t - s.last_time)),
          f, percentText f⟩ := by
    rw [update_ui_progress, if_pos ⟨htot, hbase⟩, if_pos helapsed, if_pos (by linarith)]
  refine ⟨by rw [hupd], by rw [hupd], by rw [hupd], ?_, ?_, ?_⟩
  · intro q hq
    rw [format_speed, if_pos hq]
  · intro q hq1 hq2
    rw [format_speed, if_neg (not_lt.2 hq1), if_pos hq2]
  · intro q hq
    have hk : ¬ (q < 1024) := not_lt.2 (le_trans (by norm_num) hq)
    have hm : ¬ (q < 1024 ^ 2) := not_lt.2 hq
    rw [format_speed, if_neg hk, if_neg hm]

theorem C7_monotonic_speed_witness :
    0 < (AppState.mk 2048 0 1 "Calculating..." 0 "0%").total_bytes ∧
    (update_ui_progress (AppState.mk 2048 0 1 "Calculating..." 0 "0%") 1 2).speedText
      = format_speed ((1 - 0) * ((2048:ℕ) : ℚ) / (2 - 1)) ∧
    (update_ui_progress (AppState.mk 2048 0 1 "Calculating..." 0 "0%") 1 2).last_fraction
      = 1 := by
  refine ⟨by norm_num, ?_, ?_⟩
  · exact (C7_monotonic_speed (AppState.mk 2048 0 1 "Calculating..." 0 "0%") 1 2
      (by norm_num) (by norm_num) (by norm_num) (by norm_num)).1
  · exact (C7_monotonic_speed (AppState.mk 2048 0 1 "Calculating..." 0 "0%") 1 2
      (by norm_num) (by norm_num) (by norm_num) (by norm_num)).2.1

/-- C10: while `totalBytes = 0`, or before a baseline timestamp has been
recorded (`last_time = 0`), a progress callback updates only the progress
bar fraction and its percent text; the estimator baseline and the speed
label text are left exactly as they were. -/
theorem C10_inactive_only_bar (s : AppState) (f t : ℚ)
    (h : s.total_bytes = 0 ∨ s.last_time = 0) :
    update_ui_progress s f t
      = ⟨s.total_bytes, s.last_fraction, s.last_time, s.speedText, f, percentText f⟩ := by
  apply update_inactive
  rcases h with h | h
  · intro hc; rw [h] at hc; exact absurd hc.1 (lt_irrefl 0)
  · intro hc; rw [h] at hc; exact absurd hc.2 (lt_irrefl 0)

theorem C10_inactive_only_bar_witness :
    (AppState.mk 0 ((3:ℚ)/4) 5 "1.0 KB/s" ((3:ℚ)/4) "75%").total_bytes = 0 ∧
    update_ui_progress (AppState.mk 0 ((3:ℚ)/4) 5 "1.0 KB/s" ((3:ℚ)/4) "75%") (4/5) 6
      = AppState.mk 0 ((3:ℚ)/4) 5 "1.0 KB/s" (4/5) (percentText (4/5)) :=
  ⟨rfl, C10_inactive_only_bar (AppState.mk 0 ((3:ℚ)/4) 5 "1.0 KB/s" ((3:ℚ)/4) "75%") (4/5) 6
      (Or.inl rfl)⟩

theorem classify_line_progress (line : String) (v : ℚ)
    (h : parsePyFloat (pyStrip line) = some v) :
    classify_line line = LineClass.progress (v / 100) := by
  simp only [classify_line, h]

theorem classify_line_diag (line : String)
    (h : parsePyFloat (pyStrip line) = none) (hne : pyStrip line ≠ "") :
    classify_line line = LineClass.diagnostic (pyStrip line) := by
  simp only [classify_line, h, if_neg hne]

theorem classify_line_dropped (line : String)
    (h : parsePyFloat (pyStrip line) = none) (he : pyStrip line = "") :
    classify_line line = LineClass.dropped := by
  simp only [classify_line, h, if_pos he]

theorem read_stderr_progress_eq (lines : List String) :
    (read_stderr_events lines).1
      = lines.filterMap (fun line => (parsePyFloat (pyStrip line)).map (fun v => v / 100)) := by
  induction lines with
  | nil => rfl
  | cons line rest ih =>
    rcases hp : parsePyFloat (pyStrip line) with _ | v
    · by_cases he : pyStrip line = ""
      · simp only [read_stderr_events, classify_line_dropped line hp he,
          List.filterMap_cons, hp, Option.map_none', ih]
      · simp only [read_stderr_events, classify_line_diag line hp he,
          List.filterMap_cons, hp, Option.map_none', ih]
    · simp only [read_stderr_events, classify_line_progress line v hp,
        List.filterMap_cons, hp, Option.map_some', ih]

theorem read_stderr_diag_eq (lines : List String) :
    (read_stderr_events lines).2
      = (lines.map pyStrip).filter
          (fun s => (parsePyFloat s).isNone && ! (s == "")) := by
  induction lines with
  | nil => rfl
  | cons line rest ih =>
    rcases hp : parsePyFloat (pyStrip line) with _ | v
    · by_cases he : pyStrip line = ""
      · simp only [read_stderr_events, classify_line_dropped line hp he,
          List.map_cons, List.filter_cons, hp, he, ih]
        simp
      · simp only [read_stderr_events, classify_line_diag line hp he,
          List.map_cons, List.filter_cons, hp, ih]
        simp [he]
    · simp only [read_stderr_events, classify_line_progress line v hp,
        List.map_cons, List.filter_cons, hp, ih]
      simp

/-- C2 counterexample: the line "200" is numeric but outside [0, 100]; the
read loop performs no range check, so it is emitted as progress sample 2.0 —
outside [0, 1] — and is not appended to the DiagnosticLog.  This refutes
both "out of that numeric range ... appended to the DiagnosticLog" and
"every value delivered to onProgress lies in [0, 1]". -/
theorem C2_counterexample :
    classify_line "200" = LineClass.progress ((200:ℚ) / 100) ∧
    ¬ ((200:ℚ) / 100 ≤ 1) ∧
    read_stderr_events ["200"] = ([(200:ℚ) / 100], []) := by
  have h1 : parsePyFloat (pyStrip "200") = some (((200:ℕ):ℚ) * 10 ^ (0:ℕ)) := rfl
  have h2 : parsePyFloat (pyStrip "200") = some 200 := by
    rw [h1]; norm_num
  refine ⟨classify_line_progress "200" 200 h2, by norm_num, ?_⟩
  simp only [read_stderr_events, classify_line_progress "200" 200 h2]

/-- C2 (amended): every trimmed line that parses as a float literal is emitted
as progress sample parsed/100 with no range check — a numeric line outside
[0,100] is still emitted rather than logged, and yields a sample outside
[0,1]; a non-parsing line is appended to the DiagnosticLog iff it is
non-empty after trimming; and a delivered sample lies in [0,1] iff the
parsed percentage lies in [0,100]. -/
theorem C2_stream_classification (lines : List String) :
    ((read_stderr_events lines).1
       = lines.filterMap (fun line => (parsePyFloat (pyStrip line)).map (fun v => v / 100))) ∧
    ((read_stderr_events lines).2
       = (lines.map pyStrip).filter (fun s => (parsePyFloat s).isNone && ! (s == ""))) ∧
    ∀ (line : String) (v : ℚ), parsePyFloat (pyStrip line) = some v →
      classify_line line = LineClass.progress (v / 100) ∧
      ((0 ≤ v / 100 ∧ v / 100 ≤ 1) ↔ (0 ≤ v ∧ v ≤ 100)) := by
  refine ⟨read_stderr_progress_eq lines, read_stderr_diag_eq lines, ?_⟩
  intro line v h
  refine ⟨classify_line_progress line v h, ?_⟩
  rw [div_le_one (by norm_num : (0:ℚ) < 100),
    le_div_iff₀ (by norm_num : (0:ℚ) < 100), zero_mul]

theorem C2_stream_classification_witness :
    parsePyFloat (pyStrip "42.7") = some ((427:ℚ) / 10) ∧
    classify_line "42.7" = LineClass.progress ((427:ℚ) / 10 / 100) := by
  have h1 : parsePyFloat (pyStrip "42.7")
      = some ((((42:ℕ):ℚ) + ((7:ℕ):ℚ) / (10:ℚ) ^ (1:ℕ)) * 10 ^ (0:ℕ)) := rfl
  have h2 : parsePyFloat (pyStrip "42.7") = some ((427:ℚ) / 10) := by
    rw [h1]; norm_num
  exact ⟨h2, ((C2_stream_classification []).2.2 "42.7" ((427:ℚ) / 10) h2).1⟩

/-- C3: for every completed pipeline run the supervisor invokes the completion
callback with exactly one TransferOutcome: success iff the exit code is 0,
and diagnosticText the newline-joined DiagnosticLog on failure and the empty
string on success (also when zero diagnostic lines were produced). -/
theorem C3_single_outcome (stderrLines : List String) (exitCode : ℤ) :
    ∃ o : TransferOutcome,
      (run_adb_command_with_progress stderrLines exitCode).2 = [o] ∧
      o.success = decide (exitCode = 0) ∧
      o.diagnosticText
        = (if o.success = true then ""
           else String.intercalate "\n"
             ((stderrLines.map pyStrip).filter
               (fun s => (parsePyFloat s).isNone && ! (s == "")))) := by
  refine ⟨⟨decide (exitCode = 0),
    if exitCode = 0 then "" else String.intercalate "\n" (read_stderr_events stderrLines).2⟩,
    rfl, rfl, ?_⟩
  rw [read_stderr_diag_eq]
  by_cases h : exitCode = 0
  · simp [h]
  · simp [h]

theorem supervisor_failure_sample :
    run_adb_command_with_progress ["permission denied", "abort"] 1
      = ([], [⟨false, "permission denied\nabort"⟩]) := rfl

theorem supervisor_success_sample :
    run_adb_command_with_progress [] 0 = ([], [⟨true, ""⟩]) := rfl

/-- C6: a start request whose path entry strips to the empty string is
rejected immediately and synchronously: the only effect is the validation
toast, no background thread is spawned (the workflow stays Idle) and no
collaborator — device check, size query, directory creation or pipeline
launch — is invoked. -/
theorem C6_empty_path_rejected (env : Env) (is_pull : Bool) (entryText : String)
    (h : pyStrip entryText = "") :
    on_start env is_pull entryText = ([Step.toast "Please select a local path."], []) ∧
    (((on_start env is_pull entryText).1 ++ (on_start env is_pull entryText).2).all
      (fun st => ! st.isCollaborator)) = true := by
  have h1 : on_start env is_pull entryText
      = ([Step.toast "Please select a local path."], []) := by
    rw [on_start, if_pos h]
  exact ⟨h1, by rw [h1]; rfl⟩

theorem C6_empty_path_rejected_witness :
    pyStrip "   " = "" ∧
    on_start (Env.mk true true 0 0) true "   "
      = ([Step.toast "Please select a local path."], []) :=
  ⟨rfl, (C6_empty_path_rejected (Env.mk true true 0 0) true "   " rfl).1⟩

/-- C5 counterexample: with the device present and a Push whose local path
does not exist, the background trace is `[checkDevice, finish false ...]`:
the device check — which launches an external process (`adb get-state`) —
comes before the missing-local-source validation error is detected, and the
error is reported from the spawned background thread via the completion
callback rather than synchronously.  This refutes "detected before any
external process is launched and reported synchronously". -/
theorem C5_counterexample :
    (on_start (Env.mk true false 0 0) false "/nope").2
      = [Step.checkDevice, Step.finish false "Local path does not exist"] ∧
    Step.checkDevice.launchesProcess = true ∧
    (on_start (Env.mk true false 0 0) false "/nope").2 ≠ [] := by
  have h1 : (on_start (Env.mk true false 0 0) false "/nope").2
      = [Step.checkDevice, Step.finish false "Local path does not exist"] := rfl
  exact ⟨h1, rfl, by rw [h1]; simp⟩

/-- C5 (amended): the empty-path validation error is detected synchronously
before any external process, with no effect beyond the toast; the missing
local source for Push is detected on the background thread after the device
check (an external process launch) but before the remote mkdir, the size
computation and the pipeline launch — in particular the existence check
still precedes the size computation — and it is reported through the
completion callback. -/
theorem C5_validation_order (env : Env) (is_pull : Bool) (entryText local_path : String) :
    (pyStrip entryText = "" →
      on_start env is_pull entryText = ([Step.toast "Please select a local path."], [])) ∧
    (env.devicePresent = true → env.localPathExists = false →
      prepare_and_run env false local_path
        = [Step.checkDevice, Step.finish false "Local path does not exist"]) := by
  constructor
  · intro h
    rw [on_start, if_pos h]
  · intro hd hl
    simp [prepare_and_run, hd, hl]

theorem C5_validation_order_witness :
    pyStrip "" = "" ∧
    on_start (Env.mk true false 0 0) false ""
      = ([Step.toast "Please select a local path."], []) ∧
    prepare_and_run (Env.mk true false 0 0) false "/nope2"
      = [Step.checkDevice, Step.finish false "Local path does not exist"] :=
  ⟨rfl,
   (C5_validation_order (Env.mk true false 0 0) false "" "/nope2").1 rfl,
   (C5_validation_order (Env.mk true false 0 0) false "" "/nope2").2 rfl rfl⟩

/-- C8: pipeline construction is a pure function of (direction, localPath,
totalBytes) — in the embedding two builds from equal inputs are the same
string — and for either direction the command factors into a
size-independent front, the decimal rendering of the size hint handed to
the metering stage, and a size-independent back: changing only totalBytes
changes only the metering stage's size hint, leaving stage ordering and all
other text byte-for-byte unchanged. -/
theorem C8_build_cmd_factorization (is_pull : Bool) (local_path : String) (n : ℕ) :
    build_cmd is_pull local_path n
      = cmdBeforeSize is_pull local_path ++ (toString n ++ cmdAfterSize is_pull local_path) := by
  cases is_pull <;>
    simp [build_cmd, cmdBeforeSize, cmdAfterSize, String.append_assoc]

/-- Sum of the `getsize` results of the non-link files of a walk. -/
def walkSizeSum (files : List WalkFile) : ℕ :=
  ((files.filter (fun g => ! g.isLink)).map (fun g => g.size.getD 0)).sum

theorem get_local_size_loop_link (f : WalkFile) (hf : f.isLink = true)
    (pre post : List WalkFile) :
    ∀ acc : ℕ, get_local_size_loop acc (pre ++ f :: post)
      = get_local_size_loop acc (pre ++ post) := by
  induction pre with
  | nil =>
    intro acc
    simp only [List.nil_append, get_local_size_loop, if_pos hf]
  | cons g gs ih =>
    intro acc
    simp only [List.cons_append, get_local_size_loop]
    by_cases hl : g.isLink
    · rw [if_pos hl, if_pos hl]
      exact ih acc
    · rw [if_neg hl, if_neg hl]
      rcases g.size with _ | sz
      · rfl
      · exact ih (acc + sz)

theorem get_local_size_loop_good (pre : List WalkFile)
    (hgood : ∀ g ∈ pre, g.size.isSome = true) :
    ∀ (acc : ℕ) (rest : List WalkFile),
      get_local_size_loop acc (pre ++ rest)
        = get_local_size_loop (acc + walkSizeSum pre) rest := by
  induction pre with
  | nil =>
    intro acc rest
    simp [walkSizeSum]
  | cons g gs ih =>
    intro acc rest
    have hgs : ∀ x ∈ gs, x.size.isSome = true :=
      fun x hx => hgood x (List.mem_cons_of_mem _ hx)
    have hg : g.size.isSome = true := hgood g (List.mem_cons_self _ _)
    rcases hsz : g.size with _ | sz
    · rw [hsz] at hg
      simp at hg
    · by_cases hl : g.isLink
      · simp only [List.cons_append, get_local_size_loop, if_pos hl, List.append_eq]
        rw [ih hgs acc rest]
        congr 2
        simp [walkSizeSum, hl]
      · simp only [List.cons_append, get_local_size_loop, if_neg hl, hsz, List.append_eq]
        rw [ih hgs (acc + sz) rest]
        congr 1
        simp [walkSizeSum, hl, hsz]
        omega

/-- C9: the local-size query accumulates over exactly the files the walk
yields, skips symbolically linked files entirely (inserting a link anywhere
never changes the result), returns the (non-negative, ℕ-valued) sum of the
remaining sizes when no `getsize` call fails, returns the partial
accumulated sum instead of raising to its caller when one does fail, and
returns 0 for an empty or inaccessible path, whose walk yields no files. -/
theorem C9_local_size (pre post files : List WalkFile) (f : WalkFile) :
    get_local_size ([] : List WalkFile) = 0 ∧
    (f.isLink = true →
      get_local_size (pre ++ f :: post) = get_local_size (pre ++ post)) ∧
    ((∀ g ∈ files, g.size.isSome = true) → get_local_size files = walkSizeSum files) ∧
    ((∀ g ∈ pre, g.size.isSome = true) → f.isLink = false → f.size = none →
      get_local_size (pre ++ f :: post) = walkSizeSum pre) := by
  refine ⟨rfl, ?_, ?_, ?_⟩
  · intro hf
    exact get_local_size_loop_link f hf pre post 0
  · intro hgood
    have h := get_local_size_loop_good files hgood 0 []
    simpa [get_local_size, get_local_size_loop] using h
  · intro hgood hl hnone
    have h := get_local_size_loop_good pre hgood 0 (f :: post)
    rw [get_local_size, h]
    simp only [get_local_size_loop, hl, hnone]
    simp

theorem C9_local_size_witness :
    get_local_size [WalkFile.mk false (some 3), WalkFile.mk true (some 100),
        WalkFile.mk false (some 4)]
      = walkSizeSum [WalkFile.mk false (some 3), WalkFile.mk true (some 100),
        WalkFile.mk false (some 4)] ∧
    get_local_size ([WalkFile.mk false (some 5)] ++ WalkFile.mk false none
        :: [WalkFile.mk false (some 7)])
      = walkSizeSum [WalkFile.mk false (some 5)] :=
  ⟨(C9_local_size [] [] [WalkFile.mk false (some 3), WalkFile.mk true (some 100),
      WalkFile.mk false (some 4)] (WalkFile.mk false none)).2.2.1 (by decide),
   (C9_local_size [WalkFile.mk false (some 5)] [WalkFile.mk false (some 7)] []
      (WalkFile.mk false none)).2.2.2 (by decide) rfl rfl⟩

theorem get_local_size_sample :
    get_local_size [WalkFile.mk false (some 3), WalkFile.mk true (some 100),
      WalkFile.mk false (some 4)] = 7 := rfl

end ADB
